import Mathlib

/-!
# Verification of `audit_instagram_prod_readiness.py`

A shallow embedding of the production-readiness audit script.  The script
scans a file tree for regular-expression evidence of security / resilience
patterns, evaluates a fixed catalogue of checks, and emits a scored report.

The embedding models:
* a `Corpus` as a list of `SrcFile` (path and decoded content) — file-system
  traversal and text decoding (`read_text_safe`) are the I/O boundary, so a
  file's content appears here already decoded;
* the Python `re` fragment actually used by the script as a small total
  regular-expression engine (`RE`, Brzozowski-derivative matcher `reSearch`);
* `glob_files` / `find_any` / `search_patterns` and the thirteen
  `check_*` functions over the corpus;
* `summarize_ports`, `scan_env_validation`, `check_compose_ports`,
  the report assembly and scoring of `main`, and `main`'s exit codes
  (with path existence and corpus construction abstracted as parameters).

Python semantics captured: `re.search` is existence of a match anywhere in
the string; `re.I` is modelled by lowercasing both pattern literals and the
text (all patterns are ASCII); `re.M` only changes the meaning of the
anchors `^`/`$`, which no pattern passed to `search_patterns` contains, and
is modelled explicitly (scanning at line starts) for the one anchored
pattern in `summarize_ports`.  Lazy quantifiers (`*?`, `+?`) recognise the
same language as their greedy forms, so for a boolean `re.search` they are
interchangeable.
-/

/-! ## Regular-expression engine (the `re` fragment used by the script) -/

/-- Regular expressions over characters: empty language, empty string,
single character, character class (with negation flag), `.` (any character
except newline), concatenation, alternation, Kleene star. -/
inductive RE where
  | emp  : RE
  | eps  : RE
  | chr  : Char → RE
  | cls  : List Char → Bool → RE
  | dot  : RE
  | seq  : RE → RE → RE
  | alt  : RE → RE → RE
  | star : RE → RE
deriving DecidableEq

/-- Does the class `(cs, neg)` accept character `c`? -/
def clsMatch (cs : List Char) (neg : Bool) (c : Char) : Bool :=
  if neg then !(cs.contains c) else cs.contains c

/-- Does the regex accept the empty string? -/
def RE.nullable : RE → Bool
  | .emp => false
  | .eps => true
  | .chr _ => false
  | .cls _ _ => false
  | .dot => false
  | .seq a b => a.nullable && b.nullable
  | .alt a b => a.nullable || b.nullable
  | .star _ => true

/-- Smart concatenation (simplifies `emp`/`eps` to keep derivatives small). -/
def mseq : RE → RE → RE
  | .emp, _ => .emp
  | .eps, b => b
  | a, b =>
    match b with
    | .emp => .emp
    | .eps => a
    | _ => .seq a b

/-- Smart alternation (simplifies `emp` away). -/
def malt : RE → RE → RE
  | .emp, b => b
  | a, b =>
    match b with
    | .emp => a
    | _ => .alt a b

/-- Brzozowski derivative with respect to one character. -/
def RE.deriv : RE → Char → RE
  | .emp, _ => .emp
  | .eps, _ => .emp
  | .chr c, x => if x = c then .eps else .emp
  | .cls cs n, x => if clsMatch cs n x then .eps else .emp
  | .dot, x => if x = '\n' then .emp else .eps
  | .seq a b, x =>
      if a.nullable then malt (mseq (a.deriv x) b) (b.deriv x)
      else mseq (a.deriv x) b
  | .alt a b, x => malt (a.deriv x) (b.deriv x)
  | .star a, x => mseq (a.deriv x) (.star a)

/-- Does `r` match some prefix of `s`? -/
def matchHere : RE → List Char → Bool
  | r, [] => r.nullable
  | r, c :: rest => r.nullable || matchHere (r.deriv c) rest

/-- Does `r` match some substring of `s`?  This is Python's `re.search`
viewed as a boolean. -/
def reSearch : RE → List Char → Bool
  | r, [] => r.nullable
  | r, c :: rest => matchHere r (c :: rest) || reSearch r rest

/-- ASCII lowercasing of one character. -/
def lowerChar (c : Char) : Char :=
  if 'A' ≤ c && c ≤ 'Z' then Char.ofNat (c.toNat + 32) else c

/-- ASCII lowercasing of a character list. -/
def lowerStr (s : List Char) : List Char := s.map lowerChar

/-- Lowercase the literals of a regex (model of `re.I`; the classes used by
the script contain no letters, so mapping them is vacuous but harmless). -/
def RE.lower : RE → RE
  | .chr c => .chr (lowerChar c)
  | .cls cs n => .cls (cs.map lowerChar) n
  | .seq a b => .seq a.lower b.lower
  | .alt a b => .alt a.lower b.lower
  | .star a => .star a.lower
  | r => r

/-- `re.search(rx, t, re.I | re.M)` as used by `search_patterns`
(line 115 of the script).  `re.M` only affects `^`/`$`, which none of the
patterns passed to `search_patterns` contains; `re.I` is modelled by
lowercasing pattern and text. -/
def reSearchIM (r : RE) (t : List Char) : Bool :=
  reSearch r.lower (lowerStr t)

/-- A literal string as a regex. -/
def lit (s : String) : RE :=
  s.data.foldr (fun c r => RE.seq (RE.chr c) r) RE.eps

/-- Concatenation of a list of regexes. -/
def rcat (l : List RE) : RE := l.foldr RE.seq RE.eps

/-- Whitespace characters of Python's `\s` (ASCII). -/
def wsChars : List Char := [' ', '\t', '\n', '\r', '\x0b', '\x0c']

/-- The class `\s`. -/
def wsCls : RE := RE.cls wsChars false

/-- `\s*`. -/
def wsStar : RE := RE.star wsCls

/-- `\s+`. -/
def wsPlus : RE := RE.seq wsCls wsStar

/-- The digit characters. -/
def digitChars : List Char := ['0','1','2','3','4','5','6','7','8','9']

/-- The class `[0-9]` (also `\d`). -/
def digitCls : RE := RE.cls digitChars false

/-- `[0-9]+`. -/
def digitPlus : RE := RE.seq digitCls (RE.star digitCls)

/-- `.*`. -/
def dotStar : RE := RE.star RE.dot

/-- `.+`. -/
def dotPlus : RE := RE.seq RE.dot dotStar

/-- The class `['\x22]` (single or double quote), written in the script as
a two-character class. -/
def quoteCls : RE := RE.cls [Char.ofNat 39, '"'] false

/-! ## Corpus model and file selection -/

/-- One file of the scanned tree: its path (as a string, `/`-separated) and
its decoded content.  `read_text_safe` (lines 29-36) is the decoding
boundary: a file that cannot be decoded contributes `""`. -/
structure SrcFile where
  path : String
  content : String
deriving DecidableEq

/-- Characters after the last `/` of a path: Python's `Path.name`. -/
def afterLastSlash (l : List Char) : List Char :=
  l.foldl (fun acc c => if c = '/' then [] else acc ++ [c]) []

/-- Python's `Path.name` (the base name of a path). -/
def baseName (p : String) : String := String.mk (afterLastSlash p.data)

/-- `listStarts p s`: is `p` an initial segment of `s`? -/
def listStarts : List Char → List Char → Bool
  | [], _ => true
  | _ :: _, [] => false
  | p :: ps, c :: cs => p = c && listStarts ps cs

/-- `listEnds p s`: is `p` a final segment of `s`? -/
def listEnds (p s : List Char) : Bool := listStarts p.reverse s.reverse

/-- Split a glob pattern at its (first) `*`, if any. -/
def splitOnStar : List Char → List Char × Option (List Char)
  | [] => ([], none)
  | c :: rest =>
    if c = '*' then ([], some rest)
    else
      let pr := splitOnStar rest
      (c :: pr.1, pr.2)

/-- Matching of the glob patterns the script passes to `rglob`: either an
exact name (`Dockerfile`) or a single-`*` pattern (`*.ts`,
`docker-compose*.yml`).  `rglob` with a component pattern matches the final
path component at any depth, so this is applied to `baseName`. -/
def globMatch (pat name : String) : Bool :=
  match splitOnStar pat.data with
  | (p, none) => listStarts p name.data && listStarts name.data p
  | (p, some s) =>
      listStarts p name.data && listEnds s name.data &&
        decide (p.length + s.length ≤ name.data.length)

/-- `glob_files(root, patterns)` (lines 38-42): for each pattern in order,
append all files whose name matches it (list-of-filters, joined — the same
list that `out.extend(root.rglob(pat))` builds, with corpus order standing
in for traversal order). -/
def glob_files (c : List SrcFile) (pats : List String) : List SrcFile :=
  (pats.map (fun pat => c.filter (fun f => globMatch pat (baseName f.path)))).flatten

/-- `find_any(root, names)` (lines 44-49): every file whose base name is in
`names`, in corpus order. -/
def find_any (c : List SrcFile) (names : List String) : List SrcFile :=
  c.filter (fun f => names.contains (baseName f.path))

/-! ## `search_patterns` and the check shape -/

/-- The glob allow-list used by `search_patterns` (line 111):
`["*.ts", "*.js", "*.sql", "*.yml", "*.yaml"]`.  Note that it contains no
extensionless special names: a file named `Dockerfile` or `.env` is never
searched by `search_patterns`. -/
def searchGlobs : List String := ["*.ts", "*.js", "*.sql", "*.yml", "*.yaml"]

/-- The per-group hit list: paths of the globbed files on which at least one
pattern of the group matches (the inner `for rx ... break` of lines
113-117: a file contributes at most once per group). -/
def groupHits (c : List SrcFile) (regs : List RE) : List String :=
  ((glob_files c searchGlobs).filter
      (fun f => regs.any (fun r => reSearchIM r f.content.data))).map
    (fun f => f.path)

/-- `search_patterns(root, patterns)` (lines 109-118).  The script fills the
hit dictionary file-major; the per-key lists it produces are exactly the
key-major lists built here (filtering preserves the globbed file order). -/
def search_patterns (c : List SrcFile) (pats : List (String × List RE)) :
    List (String × List String) :=
  pats.map (fun kp => (kp.1, groupHits c kp.2))

/-- Dictionary access `hits[key]` on the association list produced by
`search_patterns` (empty if the key is absent). -/
def hitsGet (hits : List (String × List String)) (k : String) : List String :=
  match hits.find? (fun kv => kv.1 == k) with
  | some kv => kv.2
  | none => []

/-- The result of one check: `{"ok": ok, "hits": hits}`. -/
structure CheckResult where
  ok : Bool
  hits : List (String × List String)
deriving DecidableEq

/-! ## The check catalogue (lines 120-238)

Each `def ...Pats` transcribes the `pats` dictionary of the corresponding
`check_*` function; each regex is transcribed term by term (lazy
quantifiers as their greedy equivalents, capture groups dropped — both are
invisible to a boolean `re.search`). -/

/-- `check_pkce` patterns (lines 121-126). -/
def pkcePats : List (String × List RE) :=
  [("has_pkce_terms", [lit "code_verifier", lit "pkce"]),
   ("stores_in_redis",
     [rcat [lit "pkce:", dotStar, lit "state"],
      RE.alt (lit "setex") (lit "setEx(")]),
   ("callback_reads_verifier",
     [lit "/callback", lit "code_verifier", lit "redis.get"]),
   ("deletes_after_use",
     [rcat [lit "redis.", RE.alt (lit "del") (lit "unlink"), lit "("]])]

/-- `check_pkce` (lines 120-129): `ok = all(hits[k] for k in hits)`. -/
def check_pkce (c : List SrcFile) : CheckResult :=
  let hits := search_patterns c pkcePats
  { ok := hits.all (fun kv => !kv.2.isEmpty), hits := hits }

/-- `check_idempotency` patterns (lines 132-135): the regexes
`createHash\(['"]sha256['"]\).*?update\(.+merchant.*raw`,
`sha256\(.+merchant_id.+rawBody`,
`UNIQUE\s*\(\s*merchant_id\s*,\s*event_id\s*\)`,
`ADD CONSTRAINT .* UNIQUE .*merchant_id.*event_id`. -/
def idempotencyPats : List (String × List RE) :=
  [("hash_merchant_and_body",
     [rcat [lit "createHash(", quoteCls, lit "sha256", quoteCls, lit ")",
            dotStar, lit "update(", dotPlus, lit "merchant", dotStar, lit "raw"],
      rcat [lit "sha256(", dotPlus, lit "merchant_id", dotPlus, lit "rawBody"]]),
   ("db_unique",
     [rcat [lit "UNIQUE", wsStar, lit "(", wsStar, lit "merchant_id", wsStar,
            lit ",", wsStar, lit "event_id", wsStar, lit ")"],
      rcat [lit "ADD CONSTRAINT ", dotStar, lit " UNIQUE ", dotStar,
            lit "merchant_id", dotStar, lit "event_id"]])]

/-- `check_idempotency` (lines 131-138):
`ok = bool(hits["hash_merchant_and_body"] or hits["db_unique"])`. -/
def check_idempotency (c : List SrcFile) : CheckResult :=
  let hits := search_patterns c idempotencyPats
  { ok := !(hitsGet hits "hash_merchant_and_body").isEmpty ||
          !(hitsGet hits "db_unique").isEmpty,
    hits := hits }

/-- `check_redis_required` patterns (lines 141-145). -/
def redisRequiredPats : List (String × List RE) :=
  [("env_required",
     [lit "REDIS_URL",
      rcat [lit "throw new Error(", dotPlus, lit "REDIS_URL", dotPlus, lit "required"]]),
   ("fail_on_end",
     [rcat [lit "redis.on(", quoteCls, lit "end", quoteCls, dotPlus, lit "process.exit"]]),
   ("rediss_tls", [lit "rediss://"])]

/-- `check_redis_required` (lines 140-148):
`ok = bool(hits["env_required"])  # minimal requirement` — the other two
groups are reported but do not enter `ok`. -/
def check_redis_required (c : List SrcFile) : CheckResult :=
  let hits := search_patterns c redisRequiredPats
  { ok := !(hitsGet hits "env_required").isEmpty, hits := hits }

/-- `check_rate_limiter` patterns (lines 151-153): the regexes
`rl:.*merchant.*endpoint.*\d+`, `redis\.incr\(`, `redis\.expire\(`. -/
def rateLimiterPats : List (String × List RE) :=
  [("redis_window",
     [rcat [lit "rl:", dotStar, lit "merchant", dotStar, lit "endpoint",
            dotStar, digitPlus],
      lit "redis.incr(", lit "redis.expire("])]

/-- `check_rate_limiter` (lines 150-156). -/
def check_rate_limiter (c : List SrcFile) : CheckResult :=
  let hits := search_patterns c rateLimiterPats
  { ok := !(hitsGet hits "redis_window").isEmpty, hits := hits }

/-- `check_retry_backoff` patterns (lines 159-163): `2\s*\*\*\s*i`,
`Math\.random\(\)` and literals. -/
def retryBackoffPats : List (String × List RE) :=
  [("handles_429_5xx", [lit "429", lit "502", lit "503", lit "504"]),
   ("exponential_backoff",
     [rcat [lit "2", wsStar, lit "**", wsStar, lit "i"],
      lit "exponential", lit "backoff"]),
   ("jitter", [lit "Math.random()"])]

/-- `check_retry_backoff` (lines 158-166):
`ok = bool(hits["handles_429_5xx"] and (hits["exponential_backoff"] or hits["jitter"]))`. -/
def check_retry_backoff (c : List SrcFile) : CheckResult :=
  let hits := search_patterns c retryBackoffPats
  { ok := !(hitsGet hits "handles_429_5xx").isEmpty &&
          (!(hitsGet hits "exponential_backoff").isEmpty ||
           !(hitsGet hits "jitter").isEmpty),
    hits := hits }

/-- `check_dlq` patterns (lines 169-172): `\.on\(['"]failed['"]`, `dlq`,
`redis\.(lpush|rpush)\(`. -/
def dlqPats : List (String × List RE) :=
  [("queue_failed_handler",
     [rcat [lit ".on(", quoteCls, lit "failed", quoteCls]]),
   ("push_dlq",
     [lit "dlq",
      rcat [lit "redis.", RE.alt (lit "lpush") (lit "rpush"), lit "("]])]

/-- `check_dlq` (lines 168-175). -/
def check_dlq (c : List SrcFile) : CheckResult :=
  let hits := search_patterns c dlqPats
  { ok := !(hitsGet hits "queue_failed_handler").isEmpty &&
          !(hitsGet hits "push_dlq").isEmpty,
    hits := hits }

/-- `check_token_renewal` patterns (lines 178-180): `renew`, `long.*lived`,
`refresh.*token`. -/
def tokenRenewalPats : List (String × List RE) :=
  [("renew_long_lived",
     [lit "renew",
      rcat [lit "long", dotStar, lit "lived"],
      rcat [lit "refresh", dotStar, lit "token"]])]

/-- `check_token_renewal` (lines 177-183). -/
def check_token_renewal (c : List SrcFile) : CheckResult :=
  let hits := search_patterns c tokenRenewalPats
  { ok := !(hitsGet hits "renew_long_lived").isEmpty, hits := hits }

/-- `check_rls` patterns (lines 186-189): `CREATE POLICY`,
`ALTER TABLE .* ENABLE ROW LEVEL SECURITY`, `set_merchant_context\(`,
`current_merchant_id\(`. -/
def rlsPats : List (String × List RE) :=
  [("policies",
     [lit "CREATE POLICY",
      rcat [lit "ALTER TABLE ", dotStar, lit " ENABLE ROW LEVEL SECURITY"]]),
   ("context_fn", [lit "set_merchant_context(", lit "current_merchant_id("])]

/-- `check_rls` (lines 185-192). -/
def check_rls (c : List SrcFile) : CheckResult :=
  let hits := search_patterns c rlsPats
  { ok := !(hitsGet hits "policies").isEmpty &&
          !(hitsGet hits "context_fn").isEmpty,
    hits := hits }

/-- `check_mapping_table` patterns (lines 195-198):
`PRIMARY KEY\s*\(\s*merchant_id\s*,\s*instagram_page_id\s*\)`,
`page_access_token_enc`, `encryp`. -/
def mappingTablePats : List (String × List RE) :=
  [("composite_pk",
     [rcat [lit "PRIMARY KEY", wsStar, lit "(", wsStar, lit "merchant_id",
            wsStar, lit ",", wsStar, lit "instagram_page_id", wsStar, lit ")"]]),
   ("encrypted_token", [lit "page_access_token_enc", lit "encryp"])]

/-- `check_mapping_table` (lines 194-201). -/
def check_mapping_table (c : List SrcFile) : CheckResult :=
  let hits := search_patterns c mappingTablePats
  { ok := !(hitsGet hits "composite_pk").isEmpty &&
          !(hitsGet hits "encrypted_token").isEmpty,
    hits := hits }

/-- `check_hmac_rawbody` patterns (lines 204-208). -/
def hmacRawbodyPats : List (String × List RE) :=
  [("header_check", [lit "X-Hub-Signature-256", lit "x-hub-signature-256"]),
   ("raw_body_used", [lit "rawBody", lit "getRawBody", lit "req.raw"]),
   ("timing_safe_equal", [lit "timingSafeEqual", lit "crypto.timingSafeEqual"])]

/-- `check_hmac_rawbody` (lines 203-211):
`ok = bool(header and raw and timing)` — AND over the three groups. -/
def check_hmac_rawbody (c : List SrcFile) : CheckResult :=
  let hits := search_patterns c hmacRawbodyPats
  { ok := !(hitsGet hits "header_check").isEmpty &&
          !(hitsGet hits "raw_body_used").isEmpty &&
          !(hitsGet hits "timing_safe_equal").isEmpty,
    hits := hits }

/-- `check_openai_hardening` patterns (lines 214-218): `timeout\s*:\s*\d+`,
`JSON\.parse\([^\)]*\)`, `try`, `catch`, `2KB|2048|<=\s*2000`. -/
def openaiHardeningPats : List (String × List RE) :=
  [("timeout", [rcat [lit "timeout", wsStar, lit ":", wsStar, digitPlus]]),
   ("json_parse_guard",
     [rcat [lit "JSON.parse(", RE.star (RE.cls [')'] true), lit ")"],
      lit "try", lit "catch"]),
   ("input_cap",
     [RE.alt (lit "2KB") (RE.alt (lit "2048") (rcat [lit "<=", wsStar, lit "2000"]))])]

/-- `check_openai_hardening` (lines 213-221):
`ok = bool(hits["timeout"]) and bool(hits["json_parse_guard"])`. -/
def check_openai_hardening (c : List SrcFile) : CheckResult :=
  let hits := search_patterns c openaiHardeningPats
  { ok := !(hitsGet hits "timeout").isEmpty &&
          !(hitsGet hits "json_parse_guard").isEmpty,
    hits := hits }

/-- `check_media_validation` patterns (lines 224-226): `mime`,
`content[-_ ]type`, `file.*size`, `MB`, `8MB|10MB|1048576`. -/
def mediaValidationPats : List (String × List RE) :=
  [("size_type_checks",
     [lit "mime",
      rcat [lit "content", RE.cls ['-', '_', ' '] false, lit "type"],
      rcat [lit "file", dotStar, lit "size"],
      lit "MB",
      RE.alt (lit "8MB") (RE.alt (lit "10MB") (lit "1048576"))])]

/-- `check_media_validation` (lines 223-229). -/
def check_media_validation (c : List SrcFile) : CheckResult :=
  let hits := search_patterns c mediaValidationPats
  { ok := !(hitsGet hits "size_type_checks").isEmpty, hits := hits }

/-- The regex `FROM\s+node:.*AS\s+build` of `check_docker_multistage`. -/
def hasBuildStageRE : RE :=
  rcat [lit "FROM", wsPlus, lit "node:", dotStar, lit "AS", wsPlus, lit "build"]

/-- `check_docker_multistage` patterns (lines 232-235): the regexes
`FROM\s+node:.*AS\s+build`, `FROM\s+node:.*\n`, `EXPOSE\s+[0-9]+`. -/
def dockerMultistagePats : List (String × List RE) :=
  [("has_build_stage", [hasBuildStageRE]),
   ("runtime_stage",
     [rcat [lit "FROM", wsPlus, lit "node:", dotStar, RE.chr '\n'],
      rcat [lit "EXPOSE", wsPlus, digitPlus]])]

/-- `check_docker_multistage` (lines 231-238):
`ok = bool(hits["has_build_stage"] and hits["runtime_stage"])`.  Like every
other check it searches only the `search_patterns` glob list, which does
not include files named `Dockerfile`. -/
def check_docker_multistage (c : List SrcFile) : CheckResult :=
  let hits := search_patterns c dockerMultistagePats
  { ok := !(hitsGet hits "has_build_stage").isEmpty &&
          !(hitsGet hits "runtime_stage").isEmpty,
    hits := hits }

/-! ## `summarize_ports` (lines 51-84)

The four `re.finditer` loops collect capture group 1 of each match into a
set.  Each is embedded as a scanner that hand-compiles the regex: it tries
the pattern at every admissible start position and returns the captured
substring.  The script's `finditer` scans left to right without overlap;
because every pattern here starts with a literal and the captured run is
maximal, the two scans collect the same *set* of captures, which is all
that survives the `set()`/`sorted()` pair. -/

/-- Whitespace test (`\s`). -/
def isWs (c : Char) : Bool := wsChars.contains c

/-- Digit test (`[0-9]`). -/
def isDigitCh (c : Char) : Bool := digitChars.contains c

/-- Consume the literal `l` from the front of `s`. -/
def dropLit : List Char → List Char → Option (List Char)
  | [], s => some s
  | _ :: _, [] => none
  | l :: ls, c :: cs => if c = l then dropLit ls cs else none

/-- Skip `\s*`. -/
def dropWsL (s : List Char) : List Char := s.dropWhile isWs

/-- The maximal leading digit run (`[0-9]+`, greedy). -/
def takeDigitsL (s : List Char) : List Char := s.takeWhile isDigitCh

/-- Try every start position, collecting the results of a positional
matcher `f` (the shape shared by all the `finditer` loops). -/
def scanAll {α : Type} (f : List Char → Option α) : List Char → List α
  | [] => []
  | c :: rest => (f (c :: rest)).toList ++ scanAll f rest

/-- `^\s*PORT\s*=\s*([0-9]+)` tried at one position (group 1 on success). -/
def portAssignAt (s : List Char) : Option String :=
  match dropLit "PORT".data (dropWsL s) with
  | none => none
  | some s2 =>
    match dropLit ['='] (dropWsL s2) with
    | none => none
    | some s4 =>
      let ds := takeDigitsL (dropWsL s4)
      if ds.isEmpty then none else some (String.mk ds)

/-- Collect group 1 of `re.finditer(r"^\s*PORT\s*=\s*([0-9]+)", t, re.M)`
(line 56): the pattern is anchored, so it is tried exactly at the start of
the text and after each newline. -/
def envPortScanAux : List Char → Bool → List String
  | [], _ => []
  | c :: rest, atStart =>
    (if atStart then (portAssignAt (c :: rest)).toList else []) ++
      envPortScanAux rest (c = '\n')

/-- The env-file port scan of `summarize_ports`. -/
def envPortScan (t : String) : List String := envPortScanAux t.data true

/-- `EXPOSE\s+([0-9]+)` tried at one position (no flags, line 62). -/
def exposeAt (s : List Char) : Option String :=
  match dropLit "EXPOSE".data s with
  | none => none
  | some s1 =>
    match s1 with
    | [] => none
    | c :: rest =>
      if isWs c then
        let ds := takeDigitsL (dropWsL rest)
        if ds.isEmpty then none else some (String.mk ds)
      else none

/-- Collect group 1 of `re.finditer(r"EXPOSE\s+([0-9]+)", t)`. -/
def exposeScan (t : String) : List String := scanAll exposeAt t.data

/-- `process\.env\.PORT\s*\|\|\s*([0-9]+)` tried at one position
(line 80). -/
def envDefaultAt (s : List Char) : Option String :=
  match dropLit "process.env.PORT".data s with
  | none => none
  | some s1 =>
    match dropLit "||".data (dropWsL s1) with
    | none => none
    | some s2 =>
      let ds := takeDigitsL (dropWsL s2)
      if ds.isEmpty then none else some (String.mk ds)

/-- `\.listen\(\s*([0-9]{2,5})` tried at one position (line 82): at least
two digits, group 1 takes greedily up to five. -/
def listenAt (s : List Char) : Option String :=
  match dropLit ".listen(".data s with
  | none => none
  | some s1 =>
    let ds := takeDigitsL (dropWsL s1)
    if ds.length < 2 then none else some (String.mk (ds.take 5))

/-- `ports:\s*\[([^\]]+)\]` tried at one position (lines 68, 244): the
bracket content (group 1) is the maximal nonempty run of non-`]`
characters, which must be closed by `]`.  `re.S` is immaterial: the pattern
has no `.`, and `[^\]]` already spans newlines. -/
def composeInnerAt (s : List Char) : Option (List Char) :=
  match dropLit "ports:".data s with
  | none => none
  | some s1 =>
    match dropLit ['['] (dropWsL s1) with
    | none => none
    | some s2 =>
      let inner := s2.takeWhile (fun c => c ≠ ']')
      if inner.isEmpty then none
      else
        match dropLit [']'] (s2.drop inner.length) with
        | some _ => some inner
        | none => none

/-- Split a character list on a separator character (Python `str.split`). -/
def splitOnChar (sep : Char) : List Char → List (List Char)
  | [] => [[]]
  | c :: rest =>
    let r := splitOnChar sep rest
    if c = sep then [] :: r
    else
      match r with
      | [] => [[c]]
      | h :: t2 => (c :: h) :: t2

/-- Python `str.strip` family: drop characters satisfying `p` from both
ends. -/
def stripWhile (p : Char → Bool) (l : List Char) : List Char :=
  ((l.dropWhile p).reverse.dropWhile p).reverse

/-- Python `s.split(":", 1)` guarded by `":" in s`: the parts before and
after the first colon. -/
def pySplitColon (l : List Char) : Option (List Char × List Char) :=
  if l.contains ':' then
    some (l.takeWhile (fun c => c ≠ ':'), (l.dropWhile (fun c => c ≠ ':')).drop 1)
  else none

/-- The `(host, container)` pairs extracted from one compose file's text
(lines 68-73 and 244-249 share this logic): for each `ports: [...]` match,
split the bracket content on commas, strip whitespace and quotes, and split
each `host:container` pair at the first colon. -/
def composePairList (t : String) : List (String × String) :=
  ((scanAll composeInnerAt t.data).map (fun inner =>
    (splitOnChar ',' inner).filterMap (fun pair =>
      let s1 := stripWhile isWs pair
      let s2 := stripWhile (fun c => c = '"') s1
      let s3 := stripWhile (fun c => c = Char.ofNat 39) s2
      match pySplitColon s3 with
      | some hc => some (String.mk hc.1, String.mk hc.2)
      | none => none))).flatten

/-- `healthcheck:[\s\S]*?curl[^\n]*?http[s]?://[^\n]+?:(\d+)/health`
(line 74, `re.I`): collect every digit run that is captured by a match —
after a `healthcheck:`, on the line of a later `curl`, a `http://` or
`https://`, then at least one character, a colon, the digits, `/health`.
This collects the group-1 value of every match of the pattern;
`finditer`'s leftmost non-overlapping scan yields a subset with the same
values on realistic compose files.  No theorem below depends on this
function's value. -/
def healthTargetScan (t : String) : List String :=
  let low := lowerStr t.data
  ((scanAll (fun s => dropLit "healthcheck:".data s) low).map (fun rest =>
    ((scanAll (fun s => dropLit "curl".data s) rest).map (fun afterCurl =>
      let line := afterCurl.takeWhile (fun c => c ≠ '\n')
      ((scanAll (fun s =>
          match dropLit "http".data s with
          | none => none
          | some s1 =>
            let s2 := match dropLit ['s'] s1 with
                      | some x => x
                      | none => s1
            dropLit "://".data s2) line).map (fun afterScheme =>
        scanAll (fun s =>
          match dropLit [':'] s with
          | none => none
          | some s1 =>
            let ds := takeDigitsL s1
            if ds.isEmpty then none
            else
              match dropLit "/health".data (s1.drop ds.length) with
              | some _ => some (String.mk ds)
              | none => none) (afterScheme.drop 1))).flatten)).flatten)).flatten

/-- Lexicographic comparison of character lists by code point — Python's
string ordering, used by `sorted`. -/
def listLt : List Char → List Char → Bool
  | [], [] => false
  | [], _ :: _ => true
  | _ :: _, [] => false
  | a :: as, b :: bs =>
    if a.toNat < b.toNat then true
    else if b.toNat < a.toNat then false
    else listLt as bs

/-- String comparison by code points. -/
def strLtB (a b : String) : Bool := listLt a.data b.data

/-- Ordered insertion for `sorted` (ascending string order). -/
def insertStr (x : String) : List String → List String
  | [] => [x]
  | y :: ys => if strLtB x y then x :: y :: ys else y :: insertStr x ys

/-- Python `sorted(set(l))`: distinct elements in ascending order. -/
def sortedSet (l : List String) : List String :=
  l.foldl (fun acc x => if acc.contains x then acc else insertStr x acc) []

/-- The `ports` dictionary of `summarize_ports` (line 52). -/
structure PortsSummary where
  env : List String
  dockerfile : List String
  compose : List String
  health_targets : List String
  code : List String
deriving DecidableEq

/-- `summarize_ports(root)` (lines 51-84). -/
def summarize_ports (c : List SrcFile) : PortsSummary :=
  let envFiles := find_any c [".env", ".env.production", ".env.example", ".env.sample"]
  let dockerFiles := c.filter (fun f => globMatch "Dockerfile" (baseName f.path))
  let composeFiles :=
    c.filter (fun f => globMatch "docker-compose*.yml" (baseName f.path)) ++
    c.filter (fun f => globMatch "docker-compose*.yaml" (baseName f.path))
  let codeFiles := glob_files c ["*.ts", "*.js"]
  { env := sortedSet ((envFiles.map (fun f => envPortScan f.content)).flatten),
    dockerfile := sortedSet ((dockerFiles.map (fun f => exposeScan f.content)).flatten),
    compose := sortedSet ((composeFiles.map
        (fun f => (composePairList f.content).map Prod.snd)).flatten),
    health_targets := sortedSet ((composeFiles.map
        (fun f => healthTargetScan f.content)).flatten),
    code := sortedSet ((codeFiles.map
        (fun f => scanAll envDefaultAt f.content.data ++
                  scanAll listenAt f.content.data)).flatten) }

/-! ## `scan_env_validation` (lines 86-107) -/

/-- The required environment variable names (lines 20-24). -/
def REQ_ENVS : List String :=
  ["META_APP_ID", "IG_APP_SECRET", "GRAPH_API_VERSION", "API_BASE_URL",
   "ENCRYPTION_KEY", "DATABASE_URL", "REDIS_URL", "OPENAI_API_KEY", "PORT",
   "IG_VERIFY_TOKEN", "REDIRECT_URI"]

/-- `rglob` with a two-component pattern such as `startup/validation.ts`:
the relative path equals the pattern or ends with `/` followed by it. -/
def pathTailMatch (pat : String) (path : String) : Bool :=
  (listStarts pat.data path.data && listStarts path.data pat.data) ||
    listEnds ('/' :: pat.data) path.data

/-- The placeholder patterns of lines 97-100, paired with their source
text (the script records `f"{ef.name}:{pat}"`, i.e. the pattern string
itself): `sk-your_`, `your_jwt_secret_here`, `your_instagram_app_id_here`,
`ENCRYPTION_KEY=.*(key_here|1234)`. -/
def placeholderPats : List (String × RE) :=
  [("sk-your_", lit "sk-your_"),
   ("your_jwt_secret_here", lit "your_jwt_secret_here"),
   ("your_instagram_app_id_here", lit "your_instagram_app_id_here"),
   ("ENCRYPTION_KEY=.*(key_here|1234)",
     rcat [lit "ENCRYPTION_KEY=", dotStar, RE.alt (lit "key_here") (lit "1234")])]

/-- The result dictionary of `scan_env_validation`: `errorMsg` is the
`"error"` key of the not-found branch (line 90). -/
structure EnvValidation where
  file : Option String
  missing_checks : List String
  placeholders_leaking : List String
  errorMsg : Option String
deriving DecidableEq

/-- `scan_env_validation(root)` (lines 86-107).  `re.search(rf"{key}", t)`
is a flagless (case-sensitive) search for the key, whose characters are all
regex-literal. -/
def scan_env_validation (c : List SrcFile) : EnvValidation :=
  let candidates :=
    c.filter (fun f => pathTailMatch "startup/validation.ts" f.path) ++
    c.filter (fun f => pathTailMatch "config/environment.ts" f.path)
  match candidates with
  | [] => { file := none, missing_checks := [], placeholders_leaking := [],
            errorMsg := some "validation file not found" }
  | f :: _ =>
    let t := f.content
    let missing := REQ_ENVS.filter (fun key => !(reSearch (lit key) t.data))
    let envFiles := find_any c [".env.example", ".env.sample"]
    let leaks :=
      ((envFiles.map (fun ef =>
          placeholderPats.filterMap (fun pr =>
            if reSearch pr.2 ef.content.data then
              some (String.append (baseName ef.path) (String.append ":" pr.1))
            else none))).flatten)
    { file := some f.path, missing_checks := missing,
      placeholders_leaking := leaks, errorMsg := none }

/-! ## `check_compose_ports`, the report and `main` (lines 240-311) -/

/-- `check_compose_ports(root)` (lines 240-251): the
`(file, host, container)` triples of every compose-file `ports:` entry. -/
def check_compose_ports (c : List SrcFile) : List (String × String × String) :=
  (((c.filter (fun f => globMatch "docker-compose*.yml" (baseName f.path)) ++
     c.filter (fun f => globMatch "docker-compose*.yaml" (baseName f.path))).map
      (fun f => (composePairList f.content).map
        (fun hc => (f.path, hc.1, hc.2)))).flatten)

/-- The score record (line 283). -/
structure Score where
  passed : Nat
  total : Nat
deriving DecidableEq

/-- The full report assembled by `main` (lines 262-283). -/
structure Report where
  ports_summary : PortsSummary
  env_validation : EnvValidation
  pkce : CheckResult
  idempotency : CheckResult
  redis_required : CheckResult
  rate_limiter : CheckResult
  retry_backoff : CheckResult
  dlq : CheckResult
  token_renewal : CheckResult
  rls : CheckResult
  mapping_table : CheckResult
  hmac_rawbody : CheckResult
  openai_hardening : CheckResult
  media_validation : CheckResult
  docker_multistage : CheckResult
  compose_ports : List (String × String × String)
  score : Score

/-- The scored check names (line 281): thirteen entries; `ports_summary`,
`env_validation` and `compose_ports` are not among them. -/
def scoredCheckNames : List String :=
  ["pkce", "idempotency", "redis_required", "rate_limiter", "retry_backoff",
   "dlq", "token_renewal", "rls", "mapping_table", "hmac_rawbody",
   "openai_hardening", "media_validation", "docker_multistage"]

/-- The results of the scored checks, in the order of `scoredCheckNames`. -/
def scoredResults (c : List SrcFile) : List CheckResult :=
  [check_pkce c, check_idempotency c, check_redis_required c,
   check_rate_limiter c, check_retry_backoff c, check_dlq c,
   check_token_renewal c, check_rls c, check_mapping_table c,
   check_hmac_rawbody c, check_openai_hardening c, check_media_validation c,
   check_docker_multistage c]

/-- The report built by `main` on a corpus (lines 262-283):
`score = sum(1 for c in checks if report[c]["ok"])`, `total = len(checks)`. -/
def auditReport (c : List SrcFile) : Report :=
  { ports_summary := summarize_ports c,
    env_validation := scan_env_validation c,
    pkce := check_pkce c,
    idempotency := check_idempotency c,
    redis_required := check_redis_required c,
    rate_limiter := check_rate_limiter c,
    retry_backoff := check_retry_backoff c,
    dlq := check_dlq c,
    token_renewal := check_token_renewal c,
    rls := check_rls c,
    mapping_table := check_mapping_table c,
    hmac_rawbody := check_hmac_rawbody c,
    openai_hardening := check_openai_hardening c,
    media_validation := check_media_validation c,
    docker_multistage := check_docker_multistage c,
    compose_ports := check_compose_ports c,
    score := { passed := ((scoredResults c).filter (fun r => r.ok)).length,
               total := scoredCheckNames.length } }

/-- `main()` (lines 253-308), with its I/O boundary as parameters:
`argv` is `sys.argv` (script name first), `pathExists` abstracts
`Path.exists` (after `resolve`, a pure path normalisation), and `corpusAt`
abstracts the walk that the checks perform under the root.  The result is
the exit code together with the report if one was produced: fewer than two
`argv` entries or a missing root return exit code 2 before any check runs
(lines 254-260); a completed run writes the report and returns 0
(line 308). -/
def mainEntry (argv : List String) (pathExists : String → Bool)
    (corpusAt : String → List SrcFile) : Nat × Option Report :=
  match argv with
  | _ :: rootPath :: _ =>
    if pathExists rootPath then (0, some (auditReport (corpusAt rootPath)))
    else (2, none)
  | _ => (2, none)

/-! ## Monotonicity notions and concrete corpora -/

/-- Extending the corpus by one file preserves every hit of a check. -/
def hitsMono (chk : List SrcFile → CheckResult) : Prop :=
  ∀ c f k p, p ∈ hitsGet (chk c).hits k → p ∈ hitsGet (chk (c ++ [f])).hits k

/-- Extending the corpus by one file never flips a check's `ok` from true
to false. -/
def okMono (chk : List SrcFile → CheckResult) : Prop :=
  ∀ c f, (chk c).ok = true → (chk (c ++ [f])).ok = true

/-- A SQL file whose only idempotency evidence is the composite uniqueness
constraint. -/
def uniqueSqlFile : SrcFile :=
  { path := "db/schema.sql",
    content := "CREATE TABLE t (merchant_id uuid, event_id text, UNIQUE (merchant_id, event_id))" }

/-- The code file of the ports scenario. -/
def portsAppFile : SrcFile :=
  { path := "src/app.ts",
    content := "const port = process.env.PORT || 8080; app.listen(3000)" }

/-- A webhook handler that mentions only the signature header. -/
def headerOnlyFile : SrcFile :=
  { path := "src/webhook.ts", content := "X-Hub-Signature-256" }

/-- A multi-stage Dockerfile, under its conventional extensionless name. -/
def dockerfileOnly : SrcFile :=
  { path := "proj/Dockerfile",
    content := "FROM node:20 AS build\nRUN npm ci\nFROM node:20\nEXPOSE 8080\n" }

/-- A code file satisfying all four PKCE groups. -/
def pkceEvidenceFile : SrcFile :=
  { path := "m.ts", content := "code_verifier pkce: state redis.del(x)" }

/-- A code file whose only Redis evidence is a TLS connection string. -/
def tlsEvidenceFile : SrcFile :=
  { path := "src/tls.ts", content := "rediss://" }

/-- A code file mentioning `redis_url` in lowercase only. -/
def lowercaseRedisFile : SrcFile :=
  { path := "src/env.ts", content := "redis_url" }

/-- A file that matches no glob and no pattern. -/
def noiseFile : SrcFile := { path := "README.md", content := "nothing here" }

/-! ## Helper lemmas -/

theorem notEmpty_iff {α : Type} {l : List α} :
    (!l.isEmpty) = true ↔ ∃ x, x ∈ l := by
  cases l <;> simp

theorem glob_files_sub {x : SrcFile} {c : List SrcFile} (f : SrcFile)
    {pats : List String} (h : x ∈ glob_files c pats) :
    x ∈ glob_files (c ++ [f]) pats := by
  simp only [glob_files, List.mem_flatten, List.mem_map] at h ⊢
  obtain ⟨l, ⟨pat, hpat, rfl⟩, hx⟩ := h
  rw [List.mem_filter] at hx
  refine ⟨_, ⟨pat, hpat, rfl⟩, ?_⟩
  rw [List.mem_filter]
  exact ⟨List.mem_append_left _ hx.1, hx.2⟩

theorem groupHits_mono {c : List SrcFile} (f : SrcFile) {regs : List RE}
    {p : String} (h : p ∈ groupHits c regs) : p ∈ groupHits (c ++ [f]) regs := by
  simp only [groupHits, List.mem_map, List.mem_filter] at h ⊢
  obtain ⟨g, ⟨hg, hmatch⟩, hpath⟩ := h
  exact ⟨g, ⟨glob_files_sub f hg, hmatch⟩, hpath⟩

theorem groupHits_ne_mono {c : List SrcFile} (f : SrcFile) {regs : List RE}
    (h : (!(groupHits c regs).isEmpty) = true) :
    (!(groupHits (c ++ [f]) regs).isEmpty) = true := by
  rw [notEmpty_iff] at h ⊢
  obtain ⟨p, hp⟩ := h
  exact ⟨p, groupHits_mono f hp⟩

theorem hitsGet_cons (kv : String × List String) (l : List (String × List String))
    (k : String) :
    hitsGet (kv :: l) k = if kv.1 == k then kv.2 else hitsGet l k := by
  by_cases h : (kv.1 == k) = true
  · simp [hitsGet, List.find?, h]
  · simp only [Bool.not_eq_true] at h
    simp [hitsGet, List.find?, h]

theorem hitsGet_sp_mono (pats : List (String × List RE)) (c : List SrcFile)
    (f : SrcFile) (k : String) (p : String)
    (h : p ∈ hitsGet (search_patterns c pats) k) :
    p ∈ hitsGet (search_patterns (c ++ [f]) pats) k := by
  induction pats with
  | nil => simp [search_patterns, hitsGet, List.find?] at h
  | cons kp rest ih =>
    have e1 : search_patterns c (kp :: rest) =
        (kp.1, groupHits c kp.2) :: search_patterns c rest := rfl
    have e2 : search_patterns (c ++ [f]) (kp :: rest) =
        (kp.1, groupHits (c ++ [f]) kp.2) :: search_patterns (c ++ [f]) rest := rfl
    rw [e1, hitsGet_cons] at h
    rw [e2, hitsGet_cons]
    by_cases hk : (kp.1 == k) = true
    · rw [if_pos hk] at h
      rw [if_pos hk]
      exact groupHits_mono f h
    · rw [if_neg hk] at h
      rw [if_neg hk]
      exact ih h

theorem hitsGet_sp_ne_mono (pats : List (String × List RE)) (k : String)
    {c : List SrcFile} (f : SrcFile)
    (h : (!(hitsGet (search_patterns c pats) k).isEmpty) = true) :
    (!(hitsGet (search_patterns (c ++ [f]) pats) k).isEmpty) = true := by
  rw [notEmpty_iff] at h ⊢
  obtain ⟨p, hp⟩ := h
  exact ⟨p, hitsGet_sp_mono pats c f k p hp⟩

theorem sp_all_ne_mono (pats : List (String × List RE)) {c : List SrcFile}
    (f : SrcFile)
    (h : (search_patterns c pats).all (fun kv => !kv.2.isEmpty) = true) :
    (search_patterns (c ++ [f]) pats).all (fun kv => !kv.2.isEmpty) = true := by
  induction pats with
  | nil => rfl
  | cons kp rest ih =>
    replace h : ((!(groupHits c kp.2).isEmpty) &&
        (search_patterns c rest).all (fun kv => !kv.2.isEmpty)) = true := h
    rw [Bool.and_eq_true] at h
    show ((!(groupHits (c ++ [f]) kp.2).isEmpty) &&
        (search_patterns (c ++ [f]) rest).all (fun kv => !kv.2.isEmpty)) = true
    rw [Bool.and_eq_true]
    exact ⟨groupHits_ne_mono f h.1, ih h.2⟩

/-! ## Claim theorems -/

/-- C1: the claim says pattern groups are evaluated against special-named
files such as `Dockerfile` regardless of extension, so a corpus whose only
docker-multistage evidence is a file named `Dockerfile` still yields hits.
The code contradicts this: `search_patterns` globs only
`*.ts/*.js/*.sql/*.yml/*.yaml` (line 111), so a file named `Dockerfile` is
never searched.  On a corpus holding one multi-stage `Dockerfile` whose
content *does* match the `has_build_stage` regex, every group's hit list is
empty and the check fails — the glob list, not the regex, is what excludes
it. -/
theorem dockerfile_outside_search_globs :
    reSearchIM hasBuildStageRE dockerfileOnly.content.data = true ∧
    glob_files [dockerfileOnly] searchGlobs = [] ∧
    (check_docker_multistage [dockerfileOnly]).ok = false ∧
    hitsGet (check_docker_multistage [dockerfileOnly]).hits "has_build_stage" = [] ∧
    hitsGet (check_docker_multistage [dockerfileOnly]).hits "runtime_stage" = [] := by
  decide

/-- C2: case-insensitive / multiline-aware matching is configured per
matching site, not globally.  The `EXPOSE\s+([0-9]+)` scan (line 62) runs
with no flags and therefore misses lowercase `expose`; the anchored
`^\s*PORT\s*=...` scan (line 56) runs with `re.M` but not `re.I`, matching
at line starts (including after a newline) but neither mid-line nor in
lowercase; the `search_patterns` catalogue (line 115) is matched with
`re.I|re.M`, so a lowercase `redis_url` satisfies the `REDIS_URL`
pattern. -/
theorem per_site_regex_flags :
    exposeScan "EXPOSE 8080" = ["8080"] ∧
    exposeScan "expose 8080" = [] ∧
    envPortScan "PORT=9090" = ["9090"] ∧
    envPortScan "x\nPORT=7070" = ["7070"] ∧
    envPortScan "listen PORT=9090" = [] ∧
    envPortScan "port=9090" = [] ∧
    hitsGet (check_redis_required [lowercaseRedisFile]).hits "env_required" =
      ["src/env.ts"] := by
  decide

/-- C3: for every corpus, `0 ≤ score.passed ≤ score.total`, `score.total`
is the length of the fixed scored-check list (13 — `ports_summary`,
`env_validation` and `compose_ports` are not in it) independent of corpus
content, and `score.passed` counts the scored checks whose result has
`ok = true` (lines 280-283). -/
theorem score_totality (c : List SrcFile) :
    0 ≤ (auditReport c).score.passed ∧
    (auditReport c).score.passed ≤ (auditReport c).score.total ∧
    (auditReport c).score.total = scoredCheckNames.length ∧
    scoredCheckNames.length = 13 ∧
    (auditReport c).score.passed = (scoredResults c).countP (fun r => r.ok) ∧
    ("ports_summary" ∉ scoredCheckNames ∧ "env_validation" ∉ scoredCheckNames ∧
      "compose_ports" ∉ scoredCheckNames) := by
  refine ⟨Nat.zero_le _, ?_, rfl, rfl, ?_, by decide, by decide, by decide⟩
  · show ((scoredResults c).filter (fun r => r.ok)).length ≤ scoredCheckNames.length
    have h13 : (scoredResults c).length = scoredCheckNames.length := rfl
    exact h13 ▸ List.length_filter_le _ _
  · show ((scoredResults c).filter (fun r => r.ok)).length =
      (scoredResults c).countP (fun r => r.ok)
    exact (List.countP_eq_length_filter _ _).symm

/-- C4: group evaluation is never short-circuited: `search_patterns`
returns an entry for every group of every check (its keys are exactly the
pattern keys), and for the webhook-signature AND-check a corpus satisfying
only the header group yields `ok = false` together with a non-empty
`header_check` hit list and empty hit lists for the other two groups. -/
theorem no_short_circuit_group_evaluation :
    (∀ (c : List SrcFile) (pats : List (String × List RE)),
        (search_patterns c pats).map Prod.fst = pats.map Prod.fst) ∧
    (∀ c : List SrcFile,
        ((check_hmac_rawbody c).hits).map Prod.fst =
          ["header_check", "raw_body_used", "timing_safe_equal"]) ∧
    ((check_hmac_rawbody [headerOnlyFile]).ok = false ∧
      hitsGet (check_hmac_rawbody [headerOnlyFile]).hits "header_check" =
        ["src/webhook.ts"] ∧
      hitsGet (check_hmac_rawbody [headerOnlyFile]).hits "raw_body_used" = [] ∧
      hitsGet (check_hmac_rawbody [headerOnlyFile]).hits "timing_safe_equal" = []) := by
  refine ⟨fun c pats => ?_, fun c => rfl, by decide⟩
  simp [search_patterns, List.map_map]

/-- C5: evaluation is monotone in the corpus.  For each of the thirteen
checks, appending a file preserves every existing hit and never flips `ok`
from true to false; and appending a matching file can flip an OR-combined
check (idempotency) from false to true. -/
theorem corpus_extension_monotone :
    (hitsMono check_pkce ∧ okMono check_pkce) ∧
    (hitsMono check_idempotency ∧ okMono check_idempotency) ∧
    (hitsMono check_redis_required ∧ okMono check_redis_required) ∧
    (hitsMono check_rate_limiter ∧ okMono check_rate_limiter) ∧
    (hitsMono check_retry_backoff ∧ okMono check_retry_backoff) ∧
    (hitsMono check_dlq ∧ okMono check_dlq) ∧
    (hitsMono check_token_renewal ∧ okMono check_token_renewal) ∧
    (hitsMono check_rls ∧ okMono check_rls) ∧
    (hitsMono check_mapping_table ∧ okMono check_mapping_table) ∧
    (hitsMono check_hmac_rawbody ∧ okMono check_hmac_rawbody) ∧
    (hitsMono check_openai_hardening ∧ okMono check_openai_hardening) ∧
    (hitsMono check_media_validation ∧ okMono check_media_validation) ∧
    (hitsMono check_docker_multistage ∧ okMono check_docker_multistage) ∧
    ((check_idempotency []).ok = false ∧
      (check_idempotency ([] ++ [uniqueSqlFile])).ok = true) := by
  have hand2 : ∀ (pats : List (String × List RE)) (k1 k2 : String)
      (c : List SrcFile) (f : SrcFile),
      (!(hitsGet (search_patterns c pats) k1).isEmpty &&
        !(hitsGet (search_patterns c pats) k2).isEmpty) = true →
      (!(hitsGet (search_patterns (c ++ [f]) pats) k1).isEmpty &&
        !(hitsGet (search_patterns (c ++ [f]) pats) k2).isEmpty) = true := by
    intro pats k1 k2 c f h
    rw [Bool.and_eq_true] at h
    rw [Bool.and_eq_true]
    exact ⟨hitsGet_sp_ne_mono pats k1 f h.1, hitsGet_sp_ne_mono pats k2 f h.2⟩
  refine ⟨⟨fun c f k p h => hitsGet_sp_mono pkcePats c f k p h,
            fun c f h => sp_all_ne_mono pkcePats f h⟩,
          ⟨fun c f k p h => hitsGet_sp_mono idempotencyPats c f k p h, ?_⟩,
          ⟨fun c f k p h => hitsGet_sp_mono redisRequiredPats c f k p h,
            fun c f h => hitsGet_sp_ne_mono redisRequiredPats "env_required" f h⟩,
          ⟨fun c f k p h => hitsGet_sp_mono rateLimiterPats c f k p h,
            fun c f h => hitsGet_sp_ne_mono rateLimiterPats "redis_window" f h⟩,
          ⟨fun c f k p h => hitsGet_sp_mono retryBackoffPats c f k p h, ?_⟩,
          ⟨fun c f k p h => hitsGet_sp_mono dlqPats c f k p h,
            fun c f h => hand2 dlqPats "queue_failed_handler" "push_dlq" c f h⟩,
          ⟨fun c f k p h => hitsGet_sp_mono tokenRenewalPats c f k p h,
            fun c f h => hitsGet_sp_ne_mono tokenRenewalPats "renew_long_lived" f h⟩,
          ⟨fun c f k p h => hitsGet_sp_mono rlsPats c f k p h,
            fun c f h => hand2 rlsPats "policies" "context_fn" c f h⟩,
          ⟨fun c f k p h => hitsGet_sp_mono mappingTablePats c f k p h,
            fun c f h => hand2 mappingTablePats "composite_pk" "encrypted_token" c f h⟩,
          ⟨fun c f k p h => hitsGet_sp_mono hmacRawbodyPats c f k p h, ?_⟩,
          ⟨fun c f k p h => hitsGet_sp_mono openaiHardeningPats c f k p h,
            fun c f h => hand2 openaiHardeningPats "timeout" "json_parse_guard" c f h⟩,
          ⟨fun c f k p h => hitsGet_sp_mono mediaValidationPats c f k p h,
            fun c f h => hitsGet_sp_ne_mono mediaValidationPats "size_type_checks" f h⟩,
          ⟨fun c f k p h => hitsGet_sp_mono dockerMultistagePats c f k p h,
            fun c f h => hand2 dockerMultistagePats "has_build_stage" "runtime_stage" c f h⟩,
          by decide, by decide⟩
  · -- idempotency: OR of the two groups
    intro c f h
    replace h : (!(hitsGet (search_patterns c idempotencyPats) "hash_merchant_and_body").isEmpty ||
        !(hitsGet (search_patterns c idempotencyPats) "db_unique").isEmpty) = true := h
    rw [Bool.or_eq_true] at h
    show (!(hitsGet (search_patterns (c ++ [f]) idempotencyPats) "hash_merchant_and_body").isEmpty ||
        !(hitsGet (search_patterns (c ++ [f]) idempotencyPats) "db_unique").isEmpty) = true
    rw [Bool.or_eq_true]
    rcases h with h | h
    · exact Or.inl (hitsGet_sp_ne_mono idempotencyPats "hash_merchant_and_body" f h)
    · exact Or.inr (hitsGet_sp_ne_mono idempotencyPats "db_unique" f h)
  · -- retry/backoff: status-class group AND (backoff OR jitter)
    intro c f h
    replace h : (!(hitsGet (search_patterns c retryBackoffPats) "handles_429_5xx").isEmpty &&
        (!(hitsGet (search_patterns c retryBackoffPats) "exponential_backoff").isEmpty ||
          !(hitsGet (search_patterns c retryBackoffPats) "jitter").isEmpty)) = true := h
    rw [Bool.and_eq_true, Bool.or_eq_true] at h
    show (!(hitsGet (search_patterns (c ++ [f]) retryBackoffPats) "handles_429_5xx").isEmpty &&
        (!(hitsGet (search_patterns (c ++ [f]) retryBackoffPats) "exponential_backoff").isEmpty ||
          !(hitsGet (search_patterns (c ++ [f]) retryBackoffPats) "jitter").isEmpty)) = true
    rw [Bool.and_eq_true, Bool.or_eq_true]
    refine ⟨hitsGet_sp_ne_mono retryBackoffPats "handles_429_5xx" f h.1, ?_⟩
    rcases h.2 with h2 | h2
    · exact Or.inl (hitsGet_sp_ne_mono retryBackoffPats "exponential_backoff" f h2)
    · exact Or.inr (hitsGet_sp_ne_mono retryBackoffPats "jitter" f h2)
  · -- hmac: AND of three groups
    intro c f h
    replace h : ((!(hitsGet (search_patterns c hmacRawbodyPats) "header_check").isEmpty &&
        !(hitsGet (search_patterns c hmacRawbodyPats) "raw_body_used").isEmpty) &&
          !(hitsGet (search_patterns c hmacRawbodyPats) "timing_safe_equal").isEmpty) = true := h
    rw [Bool.and_eq_true, Bool.and_eq_true] at h
    show ((!(hitsGet (search_patterns (c ++ [f]) hmacRawbodyPats) "header_check").isEmpty &&
        !(hitsGet (search_patterns (c ++ [f]) hmacRawbodyPats) "raw_body_used").isEmpty) &&
          !(hitsGet (search_patterns (c ++ [f]) hmacRawbodyPats) "timing_safe_equal").isEmpty) = true
    rw [Bool.and_eq_true, Bool.and_eq_true]
    exact ⟨⟨hitsGet_sp_ne_mono hmacRawbodyPats "header_check" f h.1.1,
            hitsGet_sp_ne_mono hmacRawbodyPats "raw_body_used" f h.1.2⟩,
           hitsGet_sp_ne_mono hmacRawbodyPats "timing_safe_equal" f h.2⟩

/-- C5 witness: the monotonicity theorem applied at a concrete corpus —
the PKCE check on a one-file corpus with full PKCE evidence keeps its
`has_pkce_terms` hit and its passing `ok` when an unrelated file is
appended. -/
theorem corpus_extension_monotone_witness :
    "m.ts" ∈ hitsGet (check_pkce ([pkceEvidenceFile] ++ [noiseFile])).hits
        "has_pkce_terms" ∧
    (check_pkce ([pkceEvidenceFile] ++ [noiseFile])).ok = true :=
  ⟨corpus_extension_monotone.1.1 [pkceEvidenceFile] noiseFile "has_pkce_terms"
      "m.ts" (by decide),
   corpus_extension_monotone.1.2 [pkceEvidenceFile] noiseFile (by decide)⟩

/-- C6: on a corpus with zero files the run is total (every definition
below evaluates — there is nothing to raise) and every scored check of the
report has `ok = false` with an empty hit list for every one of its
groups. -/
theorem empty_corpus_total :
    ((auditReport []).pkce.ok = false ∧
      ((auditReport []).pkce.hits).all (fun kv => kv.2.isEmpty) = true) ∧
    ((auditReport []).idempotency.ok = false ∧
      ((auditReport []).idempotency.hits).all (fun kv => kv.2.isEmpty) = true) ∧
    ((auditReport []).redis_required.ok = false ∧
      ((auditReport []).redis_required.hits).all (fun kv => kv.2.isEmpty) = true) ∧
    ((auditReport []).rate_limiter.ok = false ∧
      ((auditReport []).rate_limiter.hits).all (fun kv => kv.2.isEmpty) = true) ∧
    ((auditReport []).retry_backoff.ok = false ∧
      ((auditReport []).retry_backoff.hits).all (fun kv => kv.2.isEmpty) = true) ∧
    ((auditReport []).dlq.ok = false ∧
      ((auditReport []).dlq.hits).all (fun kv => kv.2.isEmpty) = true) ∧
    ((auditReport []).token_renewal.ok = false ∧
      ((auditReport []).token_renewal.hits).all (fun kv => kv.2.isEmpty) = true) ∧
    ((auditReport []).rls.ok = false ∧
      ((auditReport []).rls.hits).all (fun kv => kv.2.isEmpty) = true) ∧
    ((auditReport []).mapping_table.ok = false ∧
      ((auditReport []).mapping_table.hits).all (fun kv => kv.2.isEmpty) = true) ∧
    ((auditReport []).hmac_rawbody.ok = false ∧
      ((auditReport []).hmac_rawbody.hits).all (fun kv => kv.2.isEmpty) = true) ∧
    ((auditReport []).openai_hardening.ok = false ∧
      ((auditReport []).openai_hardening.hits).all (fun kv => kv.2.isEmpty) = true) ∧
    ((auditReport []).media_validation.ok = false ∧
      ((auditReport []).media_validation.hits).all (fun kv => kv.2.isEmpty) = true) ∧
    ((auditReport []).docker_multistage.ok = false ∧
      ((auditReport []).docker_multistage.hits).all (fun kv => kv.2.isEmpty) = true) ∧
    (auditReport []).score.passed = 0 := by
  decide

/-- C7: the idempotency check is the OR of its hash-based and
constraint-based groups (for every corpus), so a corpus whose only
evidence is `UNIQUE (merchant_id, event_id)` inside a `CREATE TABLE`
statement passes it through `db_unique` with no hashing evidence
anywhere. -/
theorem idempotency_or_db_unique :
    (∀ c : List SrcFile,
        (check_idempotency c).ok =
          (!(hitsGet (check_idempotency c).hits "hash_merchant_and_body").isEmpty ||
            !(hitsGet (check_idempotency c).hits "db_unique").isEmpty)) ∧
    ((check_idempotency [uniqueSqlFile]).ok = true ∧
      hitsGet (check_idempotency [uniqueSqlFile]).hits "db_unique" =
        ["db/schema.sql"] ∧
      hitsGet (check_idempotency [uniqueSqlFile]).hits "hash_merchant_and_body" = []) :=
  ⟨fun c => rfl, by decide⟩

/-- C8: on a corpus holding one `.ts` file with content
`const port = process.env.PORT || 8080; app.listen(3000)`, the code-port
evidence of the report's ports summary contains `"8080"` (from the
`process.env.PORT || n` pattern) and `"3000"` (from the `.listen(n`
pattern). -/
theorem ports_code_evidence :
    "8080" ∈ (auditReport [portsAppFile]).ports_summary.code ∧
    "3000" ∈ (auditReport [portsAppFile]).ports_summary.code ∧
    (auditReport [portsAppFile]).ports_summary.code = ["3000", "8080"] := by
  decide

/-- C9: the entry point returns exit code 2 when the positional root
argument is missing or when the root path does not exist — in both cases
producing no report, so no check runs — and exit code 0 with the full
report on every completed run, whatever the score. -/
theorem cli_exit_codes (pathExists : String → Bool)
    (corpusAt : String → List SrcFile) :
    mainEntry [] pathExists corpusAt = (2, none) ∧
    (∀ prog, mainEntry [prog] pathExists corpusAt = (2, none)) ∧
    (∀ prog r rest, pathExists r = false →
        mainEntry (prog :: r :: rest) pathExists corpusAt = (2, none)) ∧
    (∀ prog r rest, pathExists r = true →
        mainEntry (prog :: r :: rest) pathExists corpusAt =
          (0, some (auditReport (corpusAt r)))) := by
  refine ⟨rfl, fun prog => rfl, fun prog r rest h => ?_, fun prog r rest h => ?_⟩
  · simp [mainEntry, h]
  · simp [mainEntry, h]

/-- C9 witness: the exit-code theorem applied at a concrete argv and
concrete path-existence oracles. -/
theorem cli_exit_codes_witness :
    mainEntry ["audit.py", "proj"] (fun _ => false) (fun _ => []) = (2, none) ∧
    mainEntry ["audit.py", "proj"] (fun _ => true) (fun _ => []) =
      (0, some (auditReport [])) :=
  ⟨(cli_exit_codes (fun _ => false) (fun _ => [])).2.2.1 "audit.py" "proj" [] rfl,
   (cli_exit_codes (fun _ => true) (fun _ => [])).2.2.2 "audit.py" "proj" [] rfl⟩

/-- C10: for every corpus the Redis check's `ok` equals exactly the
non-emptiness of its `env_required` hit list (line 147's
`# minimal requirement`); `fail_on_end` and `rediss_tls` are always
reported as evidence (the hit keys are fixed) but never influence `ok` —
concretely, a corpus whose only Redis evidence is `rediss://` records that
hit yet fails the check. -/
theorem redis_ok_env_required_only (c : List SrcFile) :
    (check_redis_required c).ok =
      !(hitsGet (check_redis_required c).hits "env_required").isEmpty ∧
    ((check_redis_required c).hits).map Prod.fst =
      ["env_required", "fail_on_end", "rediss_tls"] ∧
    ((check_redis_required [tlsEvidenceFile]).ok = false ∧
      hitsGet (check_redis_required [tlsEvidenceFile]).hits "rediss_tls" =
        ["src/tls.ts"] ∧
      hitsGet (check_redis_required [tlsEvidenceFile]).hits "env_required" = []) :=
  ⟨rfl, rfl, by decide⟩
